import Mathlib

/-!
Shallow embedding of the AccelByte `common-blob-go` library
(provider-selection factory and unified blob-storage contract),
translated from the Go sources:

* `cloud-storage.go` — factory `NewCloudStorageWithOption`, `mergeOpts`,
  `ListIterator`, shared data types;
* `aws-test-cloud-storage.go` — `AWSTestCloudStorage` (sandbox AWS backend);
* `gcp-test-cloud-storage.go` — `GCPTestCloudStorage` (sandbox GCP backend);
* `gcp-cloud-storage-explicit.go` / `gcp-cloud-storage-implicit.go` —
  production GCP backends.

External provider SDKs (gocloud `blob.Bucket`, GCS client, S3 client) are
collaborators outside this repository; they are modelled as explicit state
(an in-memory bucket store, an environment assoc-list, a cursor step list)
so that the repository's own translation code can be checked against it.
-/

namespace CommonBlobGo

/-- Translation of the Go struct `CloudStorageOption` (cloud-storage.go).
All fields default to Go zero values. -/
structure CloudStorageOption where
  AWSS3Endpoint : String := ""
  AWSS3Region : String := ""
  AWSS3AccessKeyID : String := ""
  AWSS3SecretAccessKey : String := ""
  AWSEnableS3Accelerate : Bool := false
  GCPCredentialsJSON : String := ""
  GCPStorageEmulatorHost : String := ""
  deriving Repr, DecidableEq

/-- One iteration of the `for _, opt := range opts` loop body of
`mergeOpts` (cloud-storage.go): each string field is overwritten only when
the incoming value is non-empty, while `AWSEnableS3Accelerate` is
overwritten unconditionally. -/
def mergeStep (acc opt : CloudStorageOption) : CloudStorageOption :=
  let acc := if opt.AWSS3AccessKeyID ≠ "" then
    { acc with AWSS3AccessKeyID := opt.AWSS3AccessKeyID } else acc
  let acc := if opt.AWSS3SecretAccessKey ≠ "" then
    { acc with AWSS3SecretAccessKey := opt.AWSS3SecretAccessKey } else acc
  let acc := if opt.AWSS3Region ≠ "" then
    { acc with AWSS3Region := opt.AWSS3Region } else acc
  let acc := if opt.AWSS3Endpoint ≠ "" then
    { acc with AWSS3Endpoint := opt.AWSS3Endpoint } else acc
  let acc := { acc with AWSEnableS3Accelerate := opt.AWSEnableS3Accelerate }
  let acc := if opt.GCPStorageEmulatorHost ≠ "" then
    { acc with GCPStorageEmulatorHost := opt.GCPStorageEmulatorHost } else acc
  let acc := if opt.GCPCredentialsJSON ≠ "" then
    { acc with GCPCredentialsJSON := opt.GCPCredentialsJSON } else acc
  acc

/-- Translation of `mergeOpts` (cloud-storage.go): starts from the
zero-valued bundle and folds every supplied bundle through the loop body. -/
def mergeOpts (opts : List CloudStorageOption) : CloudStorageOption :=
  opts.foldl mergeStep {}

/-- Specification-side helper: the last non-empty value of a field in a
sequence of bundles, or `""` when every bundle leaves it empty
(stated from the spec's words, to be compared with `mergeOpts`). -/
def lastNonEmptyValue (l : List String) : String :=
  ((l.reverse).find? (fun s => s ≠ "")).getD ""

/-- `mergeStep` written as a simultaneous record update: the seven `if`
statements of the Go loop body touch pairwise distinct fields, so the
sequential updates coincide with this field-wise form. -/
theorem mergeStep_eq (acc opt : CloudStorageOption) :
    mergeStep acc opt =
      { AWSS3Endpoint := if opt.AWSS3Endpoint ≠ "" then opt.AWSS3Endpoint
          else acc.AWSS3Endpoint
        AWSS3Region := if opt.AWSS3Region ≠ "" then opt.AWSS3Region
          else acc.AWSS3Region
        AWSS3AccessKeyID := if opt.AWSS3AccessKeyID ≠ "" then opt.AWSS3AccessKeyID
          else acc.AWSS3AccessKeyID
        AWSS3SecretAccessKey := if opt.AWSS3SecretAccessKey ≠ "" then opt.AWSS3SecretAccessKey
          else acc.AWSS3SecretAccessKey
        AWSEnableS3Accelerate := opt.AWSEnableS3Accelerate
        GCPCredentialsJSON := if opt.GCPCredentialsJSON ≠ "" then opt.GCPCredentialsJSON
          else acc.GCPCredentialsJSON
        GCPStorageEmulatorHost := if opt.GCPStorageEmulatorHost ≠ "" then opt.GCPStorageEmulatorHost
          else acc.GCPStorageEmulatorHost } := by
  unfold mergeStep
  repeat' split
  all_goals rfl

theorem mergeOpts_string_field (f : CloudStorageOption → String)
    (hstep : ∀ acc opt, f (mergeStep acc opt) = if f opt ≠ "" then f opt else f acc) :
    ∀ (opts : List CloudStorageOption) (acc : CloudStorageOption),
      f (opts.foldl mergeStep acc)
        = (((opts.map f).reverse).find? (fun s => s ≠ "")).getD (f acc) := by
  intro opts
  induction opts with
  | nil => intro acc; rfl
  | cons x xs ih =>
      intro acc
      simp only [List.foldl_cons, List.map_cons, List.reverse_cons, List.find?_append]
      rw [ih, hstep]
      cases hfind : ((xs.map f).reverse).find? (fun s => s ≠ "") with
      | some y => simp [hfind]
      | none => by_cases hx : f x = "" <;> simp [hfind, hx, List.find?]

theorem mergeOpts_accel_field (opts : List CloudStorageOption) :
    ∀ acc : CloudStorageOption,
      (opts.foldl mergeStep acc).AWSEnableS3Accelerate
        = ((opts.getLast?).map (fun o => o.AWSEnableS3Accelerate)).getD
            acc.AWSEnableS3Accelerate := by
  induction opts with
  | nil => intro acc; rfl
  | cons x xs ih =>
      intro acc
      simp only [List.foldl_cons]
      rw [ih]
      cases xs with
      | nil => simp [mergeStep_eq]
      | cons y ys =>
          rw [List.getLast?_cons_cons]
          cases hl : (y :: ys).getLast? with
          | none => simp at hl
          | some z => simp [hl]

/-- C5: `mergeOpts` over any sequence of option bundles yields, for every
string field, the last non-empty value of that field in the sequence
(empty when every bundle leaves it empty); the `AWSEnableS3Accelerate`
boolean equals the value carried by the last bundle regardless of earlier
bundles; and the empty sequence yields the all-zero bundle. -/
theorem mergeOpts_last_nonEmpty_wins (opts : List CloudStorageOption) :
    (mergeOpts opts).AWSS3Endpoint
        = lastNonEmptyValue (opts.map (fun o => o.AWSS3Endpoint))
    ∧ (mergeOpts opts).AWSS3Region
        = lastNonEmptyValue (opts.map (fun o => o.AWSS3Region))
    ∧ (mergeOpts opts).AWSS3AccessKeyID
        = lastNonEmptyValue (opts.map (fun o => o.AWSS3AccessKeyID))
    ∧ (mergeOpts opts).AWSS3SecretAccessKey
        = lastNonEmptyValue (opts.map (fun o => o.AWSS3SecretAccessKey))
    ∧ (mergeOpts opts).GCPCredentialsJSON
        = lastNonEmptyValue (opts.map (fun o => o.GCPCredentialsJSON))
    ∧ (mergeOpts opts).GCPStorageEmulatorHost
        = lastNonEmptyValue (opts.map (fun o => o.GCPStorageEmulatorHost))
    ∧ (mergeOpts opts).AWSEnableS3Accelerate
        = ((opts.getLast?).map (fun o => o.AWSEnableS3Accelerate)).getD false
    ∧ mergeOpts ([] : List CloudStorageOption) = {} := by
  refine ⟨?_, ?_, ?_, ?_, ?_, ?_, ?_, rfl⟩
  · exact mergeOpts_string_field (fun o => o.AWSS3Endpoint)
      (by intro acc opt; rw [mergeStep_eq]) opts {}
  · exact mergeOpts_string_field (fun o => o.AWSS3Region)
      (by intro acc opt; rw [mergeStep_eq]) opts {}
  · exact mergeOpts_string_field (fun o => o.AWSS3AccessKeyID)
      (by intro acc opt; rw [mergeStep_eq]) opts {}
  · exact mergeOpts_string_field (fun o => o.AWSS3SecretAccessKey)
      (by intro acc opt; rw [mergeStep_eq]) opts {}
  · exact mergeOpts_string_field (fun o => o.GCPCredentialsJSON)
      (by intro acc opt; rw [mergeStep_eq]) opts {}
  · exact mergeOpts_string_field (fun o => o.GCPStorageEmulatorHost)
      (by intro acc opt; rw [mergeStep_eq]) opts {}
  · exact mergeOpts_accel_field opts {}

/-! ### Contexts, Go errors and list iteration -/

/-- A Go `context.Context`, reduced to its cancellation state. -/
structure Context where
  cancelled : Bool := false
  deriving Repr, DecidableEq

/-- Go error values observable through this library: `io.EOF` (the
distinguished end-of-sequence signal), object-not-found, and opaque
SDK/transport errors. -/
inductive GoError where
  | eof
  | notFound
  | other (msg : String)
  deriving Repr, DecidableEq

/-- A GCS object-attributes record as produced by a listing cursor
(`storage.ObjectAttrs` / gocloud `blob.ListObject`). `pfx` is the GCS
`Prefix` field, non-empty only for synthetic directory entries of a
delimiter-based listing. -/
structure GCSObjectAttrs where
  Name : String
  Updated : Int
  Size : Int
  MD5 : List Nat
  pfx : String := ""
  deriving Repr, DecidableEq

/-- Translation of the Go struct `ListObject` (cloud-storage.go). -/
structure ListObject where
  Key : String
  ModTime : Int
  Size : Int
  MD5 : List Nat
  IsDir : Bool := false
  deriving Repr, DecidableEq

/-- What one call to a backend's `Next` closure produces: a translated
object, a `(nil, err)` pair, or a run-time nil-pointer dereference. -/
inductive NextOutcome where
  | object (o : ListObject)
  | fail (e : GoError)
  | nilPanic
  deriving Repr, DecidableEq

/-- A provider pagination cursor, modelled as the sequence of results the
SDK iterator will yield; the empty list means the cursor is exhausted. -/
inductive CursorStep where
  | ok (attrs : GCSObjectAttrs)
  | err (e : GoError)
  deriving Repr, DecidableEq

abbrev Cursor := List CursorStep

/-- Result of the native GCS `ObjectIterator.Next()`: `(nil,
iterator.Done)` at exhaustion, `(nil, err)` on failure (the attributes
pointer is nil in both cases), or the next object's attributes. -/
inductive GCSIterResult where
  | done
  | failed (e : GoError)
  | objectOk (a : GCSObjectAttrs)
  deriving Repr, DecidableEq

/-- The native GCS `ObjectIterator.Next()` (collaborator model). -/
def gcsObjectIteratorNext : Cursor → GCSIterResult × Cursor
  | [] => (.done, [])
  | .err e :: rest => (.failed e, rest)
  | .ok a :: rest => (.objectOk a, rest)

/-- Result of the gocloud `blob.ListIterator.Next(ctx)`: `(nil, io.EOF)`
at exhaustion, `(nil, err)` on failure, or the next object. -/
inductive SDKIterResult where
  | failed (e : GoError)
  | objectOk (a : GCSObjectAttrs)
  deriving Repr, DecidableEq

/-- The gocloud bucket iterator's `Next(ctx)` (collaborator model): a
cancelled context aborts the fetch with a context error; exhaustion
surfaces as `io.EOF`. -/
def gocloudIterNext (ctx : Context) (cur : Cursor) : SDKIterResult × Cursor :=
  if ctx.cancelled then (.failed (.other "context canceled"), cur)
  else
    match cur with
    | [] => (.failed .eof, [])
    | .err e :: rest => (.failed e, rest)
    | .ok a :: rest => (.objectOk a, rest)

/-- Translation of the Go struct `ListIterator` (cloud-storage.go): it
holds only the closure `f` captured by `newListIterator`, here given as a
pure step function over the captured SDK cursor state. -/
structure ListIterator where
  f : Cursor → NextOutcome × Cursor
  cursor : Cursor

/-- Translation of `newListIterator` (cloud-storage.go). -/
def newListIterator (f : Cursor → NextOutcome × Cursor) (cur : Cursor) : ListIterator :=
  { f := f, cursor := cur }

/-- Translation of `(*ListIterator).Next` (cloud-storage.go): the body is
`return i.f()` — the context argument is not consulted. -/
def ListIterator.Next (i : ListIterator) (ctx : Context) : NextOutcome × ListIterator :=
  let oc := i.f i.cursor
  (oc.fst, { i with cursor := oc.snd })

/-! ### Backend structs

Each Go backend struct owns a provider SDK client handle and/or an open
bucket handle; handle ownership is modelled by open/closed flags. The
`bucketCloseFunc` closure captured at construction closes only the bucket
handle, so `Close` is embedded as exactly that state change. -/

/-- Translation of the Go struct `AWSTestCloudStorage`
(aws-test-cloud-storage.go): owns an `s3.S3` client and a gocloud bucket. -/
structure AWSTestCloudStorage where
  clientOpen : Bool := true
  bucketOpen : Bool := true
  bucketName : String
  deriving Repr, DecidableEq

/-- Translation of the Go struct `AWSCloudStorage` (production AWS
backend): owns only a gocloud bucket handle. The transfer-acceleration
flag is recorded from the construction argument. -/
structure AWSCloudStorage where
  bucketOpen : Bool := true
  bucketName : String
  enableAccelerate : Bool := false
  deriving Repr, DecidableEq

/-- Translation of the Go struct `GCPTestCloudStorage`
(gcp-test-cloud-storage.go): owns a `storage.Client`, a gocloud bucket,
and records the emulator host read from the environment. -/
structure GCPTestCloudStorage where
  clientOpen : Bool := true
  bucketOpen : Bool := true
  bucketName : String
  host : String
  deriving Repr, DecidableEq

/-- Translation of the Go struct `ExplicitGCPCloudStorage`
(gcp-cloud-storage-explicit.go): owns a `storage.Client` and a gocloud
bucket, plus the signing material extracted from the credential JSON. -/
structure ExplicitGCPCloudStorage where
  clientOpen : Bool := true
  bucketOpen : Bool := true
  bucketName : String
  privateKey : String
  googleAccessID : String
  deriving Repr, DecidableEq

/-- Translation of the Go struct `ImplicitGCPCloudStorage`
(gcp-cloud-storage-implicit.go): owns a `storage.Client`, a gocloud
bucket and an IAM credentials client, plus the resolved service-account
email. -/
structure ImplicitGCPCloudStorage where
  clientOpen : Bool := true
  bucketOpen : Bool := true
  iamClientOpen : Bool := true
  bucketName : String
  serviceAccountEmail : String
  deriving Repr, DecidableEq

/-- `(*ExplicitGCPCloudStorage).Close`: invokes `bucketCloseFunc`, the
closure captured at construction, which calls `bucket.Close()` only; the
`storage.Client` handle is never closed. -/
def ExplicitGCPCloudStorage.Close (ts : ExplicitGCPCloudStorage) : ExplicitGCPCloudStorage :=
  { ts with bucketOpen := false }

/-- `(*ImplicitGCPCloudStorage).Close`: `bucketCloseFunc` closes the
bucket only; neither the storage client nor the IAM client is closed. -/
def ImplicitGCPCloudStorage.Close (ts : ImplicitGCPCloudStorage) : ImplicitGCPCloudStorage :=
  { ts with bucketOpen := false }

/-- `(*GCPTestCloudStorage).Close`: `bucketCloseFunc` closes the bucket
only. -/
def GCPTestCloudStorage.Close (ts : GCPTestCloudStorage) : GCPTestCloudStorage :=
  { ts with bucketOpen := false }

/-- `(*AWSTestCloudStorage).Close`: `bucketCloseFunc` closes the bucket
only; the `s3.S3` client is never closed. -/
def AWSTestCloudStorage.Close (ts : AWSTestCloudStorage) : AWSTestCloudStorage :=
  { ts with bucketOpen := false }

/-! ### List closures per backend -/

/-- The closure built by `(*GCPTestCloudStorage).List`
(gcp-test-cloud-storage.go, lines 122-138): maps `iterator.Done` to
`(nil, io.EOF)`, forwards any other error, and otherwise translates the
attributes into a `ListObject`. -/
def GCPTestCloudStorage.listClosure (cur : Cursor) : NextOutcome × Cursor :=
  match gcsObjectIteratorNext cur with
  | (.done, rest) => (.fail .eof, rest)
  | (.failed e, rest) => (.fail e, rest)
  | (.objectOk a, rest) =>
      (.object { Key := a.Name, ModTime := a.Updated, Size := a.Size, MD5 := a.MD5 }, rest)

/-- The closure built by `(*GCPTestCloudStorage).ListWithOptions`
(gcp-test-cloud-storage.go, lines 150-169): after the `iterator.Done`
check the Go code reads `attrs.Name` without checking the error, so a
cursor error other than `Done` leaves `attrs == nil` and the field access
is a nil-pointer dereference. -/
def GCPTestCloudStorage.listWithOptionsClosure (cur : Cursor) : NextOutcome × Cursor :=
  match gcsObjectIteratorNext cur with
  | (.done, rest) => (.fail .eof, rest)
  | (.failed _, rest) => (.nilPanic, rest)
  | (.objectOk a, rest) =>
      let name := if a.pfx ≠ "" then a.pfx else a.Name
      let isDir := if a.pfx ≠ "" then true else false
      (.object { Key := name, ModTime := a.Updated, Size := a.Size, MD5 := a.MD5,
                 IsDir := isDir }, rest)

/-- `(*GCPTestCloudStorage).List`: creates the native GCS cursor (whose
fetches are governed by the context passed here) and wraps the closure. -/
def GCPTestCloudStorage.List (ctx : Context) (cur : Cursor) : ListIterator :=
  newListIterator GCPTestCloudStorage.listClosure cur

/-- `(*GCPTestCloudStorage).ListWithOptions`: wraps the delimiter-aware
closure around the native GCS cursor. -/
def GCPTestCloudStorage.ListWithOptions (ctx : Context) (cur : Cursor) : ListIterator :=
  newListIterator GCPTestCloudStorage.listWithOptionsClosure cur

/-- The closure built by `(*ExplicitGCPCloudStorage).List`
(gcp-cloud-storage-explicit.go, lines 115-127): calls `iter.Next(ctx)`
with the context captured when `List` was called, forwards any error
(including `io.EOF`), and otherwise translates the attributes. -/
def ExplicitGCPCloudStorage.listClosure (ctx : Context) (cur : Cursor) : NextOutcome × Cursor :=
  match gocloudIterNext ctx cur with
  | (.failed e, rest) => (.fail e, rest)
  | (.objectOk a, rest) =>
      (.object { Key := a.Name, ModTime := a.Updated, Size := a.Size, MD5 := a.MD5 }, rest)

/-- `(*ExplicitGCPCloudStorage).List`: the gocloud iterator and the
calling context are captured by the closure at `List` time. -/
def ExplicitGCPCloudStorage.List (ctx : Context) (cur : Cursor) : ListIterator :=
  newListIterator (ExplicitGCPCloudStorage.listClosure ctx) cur

/-- `p` is a string prefix of `s` (Go `strings.HasPrefix`), computed on
the underlying character lists. -/
def strIsPfxOf (p s : String) : Bool :=
  p.data.isPrefixOf s.data

/-- Go `strings.TrimSuffix`: removes one trailing occurrence of `suf`
when present. -/
def trimSuffix (s suf : String) : String :=
  if suf.data.isSuffixOf s.data then
    String.mk (s.data.take (s.data.length - suf.data.length))
  else s

/-- Translation of the Go struct `Attributes` (cloud-storage.go);
`Metadata` is an association list, `ModTime` an integer timestamp. -/
structure Attributes where
  CacheControl : String
  ContentDisposition : String
  ContentEncoding : String
  ContentLanguage : String
  ContentType : String
  Metadata : List (String × String)
  ModTime : Int
  Size : Int
  MD5 : List Nat
  deriving Repr, DecidableEq

/-! ### Signed URLs -/

/-- Translation of the Go struct `SignedURLOption` (cloud-storage.go);
`Expiry` is a `time.Duration` in seconds. -/
structure SignedURLOption where
  Method : String := ""
  Expiry : Int := 0
  ContentType : String := ""
  EnforceAbsentContentType : Bool := false
  deriving Repr, DecidableEq

/-- What a backend's `GetSignedURL` produces: either a plain URL string
assembled without any signing, or a delegation to the provider SDK's
cryptographic presigning (`bucket.SignedURL` / `storage.SignedURL`). -/
inductive SignedURLOutcome where
  | unsigned (url : String)
  | sdkPresigned (key : String) (expirySecs : Int)
  deriving Repr, DecidableEq

def SignedURLOutcome.isUnsigned : SignedURLOutcome → Bool
  | .unsigned _ => true
  | .sdkPresigned _ _ => false

/-- `(*GCPTestCloudStorage).GetSignedURL` (gcp-test-cloud-storage.go,
lines 236-242): `fmt.Sprintf("http://%s/%s/%s", ts.host, ts.bucketName,
key)` returned with a nil error; the options are not consulted and no
signing happens. -/
def GCPTestCloudStorage.GetSignedURL (ts : GCPTestCloudStorage) (key : String)
    (opts : SignedURLOption) : SignedURLOutcome × Option GoError :=
  (.unsigned ("http://" ++ ts.host ++ "/" ++ ts.bucketName ++ "/" ++ key), none)

/-- `(*AWSTestCloudStorage).GetSignedURL` (aws-test-cloud-storage.go,
lines 177-179): `return ts.bucket.SignedURL(context.Background(), key,
&blob.SignedURLOptions{Expiry: expiry})` — a delegation to the SDK's
cryptographic presigning, exactly as in the production AWS backend. -/
def AWSTestCloudStorage.GetSignedURL (ts : AWSTestCloudStorage) (key : String)
    (expiry : Int) : SignedURLOutcome × Option GoError :=
  (.sdkPresigned key expiry, none)

/-! ### Bucket creation and lifecycle rules -/

/-- A lifecycle rule attached to a bucket: `pfxFilter = none` applies the
expiration to every key; `some p` restricts it to keys starting with
`p`. -/
structure LifecycleRule where
  pfxFilter : Option String
  expirationDays : Int
  deriving Repr, DecidableEq

/-- Whether a lifecycle rule governs the object stored under `key`. -/
def LifecycleRule.appliesTo (r : LifecycleRule) (key : String) : Bool :=
  match r.pfxFilter with
  | none => true
  | some p => strIsPfxOf p key

/-- Provider-side bucket infrastructure state: existence plus the
installed lifecycle configuration. -/
structure BucketInfra where
  bucketExists : Bool
  rules : List LifecycleRule
  deriving Repr, DecidableEq

/-- `(*AWSCloudStorage).CreateBucket` (production): `return nil` with no
storage operation. -/
def AWSCloudStorage.CreateBucket (infra : BucketInfra) (bucketPfx : String)
    (expirationTimeDays : Int) : BucketInfra × Option GoError :=
  (infra, none)

/-- `(*ExplicitGCPCloudStorage).CreateBucket` (production): `return nil`
with no storage operation. -/
def ExplicitGCPCloudStorage.CreateBucket (infra : BucketInfra) (bucketPfx : String)
    (expirationTimeDays : Int) : BucketInfra × Option GoError :=
  (infra, none)

/-- `(*ImplicitGCPCloudStorage).CreateBucket` (production): `return nil`
with no storage operation. -/
def ImplicitGCPCloudStorage.CreateBucket (infra : BucketInfra) (bucketPfx : String)
    (expirationTimeDays : Int) : BucketInfra × Option GoError :=
  (infra, none)

/-- `(*AWSTestCloudStorage).CreateBucket` (aws-test-cloud-storage.go,
lines 118-171): `client.CreateBucket` — a `BucketAlreadyExists` failure
returns nil early, skipping the lifecycle configuration; on fresh
creation, `PutBucketLifecycleConfiguration` installs a single rule whose
filter prefix is `strings.TrimSuffix(bucketPrefix, "/")` and whose
expiration is `expirationTimeDays` days. -/
def AWSTestCloudStorage.CreateBucket (infra : BucketInfra) (bucketPfx : String)
    (expirationTimeDays : Int) : BucketInfra × Option GoError :=
  if infra.bucketExists then
    (infra, none)
  else
    ({ bucketExists := true,
       rules := [{ pfxFilter := some (trimSuffix bucketPfx "/"),
                   expirationDays := expirationTimeDays }] }, none)

/-- `(*GCPTestCloudStorage).CreateBucket` (gcp-test-cloud-storage.go,
lines 202-230): `client.Bucket(ts.bucketName).Create` with a lifecycle
configuration of a single Delete rule conditioned only on
`AgeInDays: expirationTimeDays` — the `bucketPrefix` argument is only
logged and is not part of the rule; a creation failure (e.g. the bucket
already exists) is returned wrapped. -/
def GCPTestCloudStorage.CreateBucket (infra : BucketInfra) (bucketPfx : String)
    (expirationTimeDays : Int) : BucketInfra × Option GoError :=
  if infra.bucketExists then
    (infra, some (.other "failed to create bucket: bucket exists"))
  else
    ({ bucketExists := true,
       rules := [{ pfxFilter := none,
                   expirationDays := expirationTimeDays }] }, none)

/-! ### Blob content store (collaborator model of the bucket) -/

abbrev Body := List Nat

/-- An object held by the provider's bucket (collaborator model): its
content bytes and content type. -/
structure StoredBlob where
  data : Body
  contentType : String
  deriving Repr, DecidableEq

abbrev BucketStore := List (String × StoredBlob)

/-- gocloud `bucket.WriteAll` (collaborator model): whole-object replace
under the key. -/
def bucketWriteAll (st : BucketStore) (key : String) (b : StoredBlob) : BucketStore :=
  (key, b) :: st.filter (fun p => p.fst ≠ key)

/-- gocloud `bucket.ReadAll` (collaborator model): full buffering;
not-found when the key is absent. -/
def bucketReadAll (st : BucketStore) (key : String) : Except GoError Body :=
  match (st.find? (fun p => p.fst == key)).map (fun p => p.snd) with
  | none => .error .notFound
  | some b => .ok b.data

/-- The attributes record returned by the provider SDK for one object
(gocloud `blob.Attributes` / GCS `storage.ObjectAttrs`): in particular
its `Size` is the stored content length. -/
def bucketSDKAttributes (st : BucketStore) (key : String) : Except GoError Attributes :=
  match (st.find? (fun p => p.fst == key)).map (fun p => p.snd) with
  | none => .error .notFound
  | some b =>
      .ok { CacheControl := "", ContentDisposition := "", ContentEncoding := "",
            ContentLanguage := "", ContentType := b.contentType, Metadata := [],
            ModTime := 0, Size := (b.data.length : Int), MD5 := [] }

/-- `WriterOptions` assembly shared by every backend's `Write`: a nil
content type leaves the option at its zero value. -/
def writerContentType (contentType : Option String) : String :=
  match contentType with
  | some c => c
  | none => ""

/-- `(*ExplicitGCPCloudStorage).Write`: `bucket.WriteAll(ctx, key, body,
options)` with the content-type option. The bucket contents are passed as
explicit state. -/
def ExplicitGCPCloudStorage.Write (st : BucketStore) (key : String) (body : Body)
    (contentType : Option String) : BucketStore × Option GoError :=
  (bucketWriteAll st key { data := body, contentType := writerContentType contentType }, none)

/-- `(*ExplicitGCPCloudStorage).Get`: `bucket.ReadAll(ctx, key)`. -/
def ExplicitGCPCloudStorage.Get (st : BucketStore) (key : String) : Except GoError Body :=
  bucketReadAll st key

/-- `(*ExplicitGCPCloudStorage).Attributes`: fetches the SDK attributes
and copies them field-by-field into the library's `Attributes`. -/
def ExplicitGCPCloudStorage.Attributes (st : BucketStore) (key : String) :
    Except GoError Attributes :=
  match bucketSDKAttributes st key with
  | .error e => .error e
  | .ok attrs =>
      .ok { CacheControl := attrs.CacheControl,
            ContentDisposition := attrs.ContentDisposition,
            ContentEncoding := attrs.ContentEncoding,
            ContentLanguage := attrs.ContentLanguage,
            ContentType := attrs.ContentType,
            Metadata := attrs.Metadata,
            ModTime := attrs.ModTime,
            Size := attrs.Size,
            MD5 := attrs.MD5 }

/-- `(*ImplicitGCPCloudStorage).Write`: same `bucket.WriteAll` wrapper. -/
def ImplicitGCPCloudStorage.Write (st : BucketStore) (key : String) (body : Body)
    (contentType : Option String) : BucketStore × Option GoError :=
  (bucketWriteAll st key { data := body, contentType := writerContentType contentType }, none)

/-- `(*ImplicitGCPCloudStorage).Get`: `bucket.ReadAll(ctx, key)`. -/
def ImplicitGCPCloudStorage.Get (st : BucketStore) (key : String) : Except GoError Body :=
  bucketReadAll st key

/-- `(*ImplicitGCPCloudStorage).Attributes`: same field-by-field copy. -/
def ImplicitGCPCloudStorage.Attributes (st : BucketStore) (key : String) :
    Except GoError Attributes :=
  ExplicitGCPCloudStorage.Attributes st key

/-- `(*GCPTestCloudStorage).Write`: same `bucket.WriteAll` wrapper. -/
def GCPTestCloudStorage.Write (st : BucketStore) (key : String) (body : Body)
    (contentType : Option String) : BucketStore × Option GoError :=
  (bucketWriteAll st key { data := body, contentType := writerContentType contentType }, none)

/-- `(*GCPTestCloudStorage).Get`: `bucket.ReadAll(ctx, key)`. -/
def GCPTestCloudStorage.Get (st : BucketStore) (key : String) : Except GoError Body :=
  bucketReadAll st key

/-- `(*GCPTestCloudStorage).Attributes`: fetched through the native
client (`client.Bucket(name).Object(key).Attrs`), which reads the same
bucket; `Updated` maps to `ModTime`. -/
def GCPTestCloudStorage.Attributes (st : BucketStore) (key : String) :
    Except GoError Attributes :=
  ExplicitGCPCloudStorage.Attributes st key

/-- `(*AWSTestCloudStorage).Write`: same `bucket.WriteAll` wrapper. -/
def AWSTestCloudStorage.Write (st : BucketStore) (key : String) (body : Body)
    (contentType : Option String) : BucketStore × Option GoError :=
  (bucketWriteAll st key { data := body, contentType := writerContentType contentType }, none)

/-- `(*AWSTestCloudStorage).Get`: `bucket.ReadAll(ctx, key)`. -/
def AWSTestCloudStorage.Get (st : BucketStore) (key : String) : Except GoError Body :=
  bucketReadAll st key

/-- `(*AWSTestCloudStorage).Attributes`: same field-by-field copy. -/
def AWSTestCloudStorage.Attributes (st : BucketStore) (key : String) :
    Except GoError Attributes :=
  ExplicitGCPCloudStorage.Attributes st key

/-- `(*AWSCloudStorage).Write`: same `bucket.WriteAll` wrapper. -/
def AWSCloudStorage.Write (st : BucketStore) (key : String) (body : Body)
    (contentType : Option String) : BucketStore × Option GoError :=
  (bucketWriteAll st key { data := body, contentType := writerContentType contentType }, none)

/-- `(*AWSCloudStorage).Get`: `bucket.ReadAll(ctx, key)`. -/
def AWSCloudStorage.Get (st : BucketStore) (key : String) : Except GoError Body :=
  bucketReadAll st key

/-- `(*AWSCloudStorage).Attributes`: same field-by-field copy. -/
def AWSCloudStorage.Attributes (st : BucketStore) (key : String) :
    Except GoError Attributes :=
  ExplicitGCPCloudStorage.Attributes st key

/-- The closed set of provider backend variants. -/
inductive BackendVariant where
  | awsProd
  | awsTest
  | gcpTest
  | gcpExplicit
  | gcpImplicit
  deriving Repr, DecidableEq

def variantWrite : BackendVariant → BucketStore → String → Body → Option String →
    BucketStore × Option GoError
  | .awsProd => AWSCloudStorage.Write
  | .awsTest => AWSTestCloudStorage.Write
  | .gcpTest => GCPTestCloudStorage.Write
  | .gcpExplicit => ExplicitGCPCloudStorage.Write
  | .gcpImplicit => ImplicitGCPCloudStorage.Write

def variantGet : BackendVariant → BucketStore → String → Except GoError Body
  | .awsProd => AWSCloudStorage.Get
  | .awsTest => AWSTestCloudStorage.Get
  | .gcpTest => GCPTestCloudStorage.Get
  | .gcpExplicit => ExplicitGCPCloudStorage.Get
  | .gcpImplicit => ImplicitGCPCloudStorage.Get

def variantAttributes : BackendVariant → BucketStore → String → Except GoError Attributes
  | .awsProd => AWSCloudStorage.Attributes
  | .awsTest => AWSTestCloudStorage.Attributes
  | .gcpTest => GCPTestCloudStorage.Attributes
  | .gcpExplicit => ExplicitGCPCloudStorage.Attributes
  | .gcpImplicit => ImplicitGCPCloudStorage.Attributes

/-! ### Process environment and SDK world -/

/-- The process environment (`os.Setenv` / `os.Getenv`), as an
association list with the most recent binding first. -/
abbrev Env := List (String × String)

/-- `os.Setenv` (modelled as always succeeding). -/
def setenv (e : Env) (name value : String) : Env :=
  (name, value) :: e

/-- `os.Getenv`: empty string when the variable is unset. -/
def getenv (e : Env) (name : String) : String :=
  ((e.find? (fun p => p.fst == name)).map (fun p => p.snd)).getD ""

/-- Translation of the Go struct `signature`
(gcp-cloud-storage-explicit.go): the fields extracted from the credential
JSON. -/
structure signature where
  PrivateKey : String
  GoogleAccessID : String
  deriving Repr, DecidableEq

/-- Oracle for the external SDK collaborators reached during
construction: whether each handshake succeeds, whether the process runs
on GCE, and how the credential JSON parses. -/
structure SDKWorld where
  onGCE : Bool
  s3SessionOk : Bool := true
  s3OpenOk : Bool := true
  gcpClientOk : Bool := true
  gcpHTTPOk : Bool := true
  gcsOpenOk : Bool := true
  defaultCredsOk : Bool := true
  iamClientOk : Bool := true
  serviceAccountEmail : Option String := some "sa@example.iam.gserviceaccount.com"
  credsParseOk : String → Bool
  unmarshalSig : String → Option signature

/-- A provider handshake performed during construction. -/
inductive ProviderCall where
  | awsNewSession
  | s3OpenBucket (bucketName : String)
  | gceProbe
  | gcpNewClient
  | gcsOpenBucket (bucketName : String)
  | gcpDefaultCreds
  | iamNewClient
  deriving Repr, DecidableEq

/-- The backend handle returned by the factory. -/
inductive Backend where
  | awsTest (b : AWSTestCloudStorage)
  | awsProd (b : AWSCloudStorage)
  | gcpTest (b : GCPTestCloudStorage)
  | gcpExplicit (b : ExplicitGCPCloudStorage)
  | gcpImplicit (b : ImplicitGCPCloudStorage)
  deriving Repr, DecidableEq

def Backend.isAWS : Backend → Bool
  | .awsTest _ => true
  | .awsProd _ => true
  | _ => false

def Backend.isGCP : Backend → Bool
  | .gcpTest _ => true
  | .gcpExplicit _ => true
  | .gcpImplicit _ => true
  | _ => false

/-- The name of the bucket the backend's handle is open against. -/
def Backend.bucketName : Backend → String
  | .awsTest b => b.bucketName
  | .awsProd b => b.bucketName
  | .gcpTest b => b.bucketName
  | .gcpExplicit b => b.bucketName
  | .gcpImplicit b => b.bucketName

/-! ### Backend constructors -/

/-- Translation of `newAWSTestCloudStorage` (aws-test-cloud-storage.go,
lines 40-84): creates an AWS session and client and opens
`s3blob.OpenBucket(ctx, awsSession, bucketName, nil)` — the bucket opened
and recorded is named by this function's `bucketName` parameter. -/
def newAWSTestCloudStorage (w : SDKWorld) (s3Endpoint s3Region bucketName : String) :
    Except String AWSTestCloudStorage × List ProviderCall :=
  if ¬ w.s3SessionOk then
    (.error "session error", [.awsNewSession])
  else if ¬ w.s3OpenOk then
    (.error "open bucket error", [.awsNewSession, .s3OpenBucket bucketName])
  else
    (.ok { clientOpen := true, bucketOpen := true, bucketName := bucketName },
     [.awsNewSession, .s3OpenBucket bucketName])

/-- Modelled from the spec: the five-argument production AWS constructor
called by the factory is not among the provided sources (its in-repo
four-argument revisions open `s3blob.OpenBucket` against the `bucketName`
parameter); per the spec it constructs the AWS-production backend,
optionally with transfer acceleration, against its bucket-name
parameter. -/
def newAWSCloudStorage (w : SDKWorld) (s3Endpoint s3Region bucketName : String)
    (enableAccelerate : Bool) : Except String AWSCloudStorage × List ProviderCall :=
  if ¬ w.s3SessionOk then
    (.error "session error", [.awsNewSession])
  else if ¬ w.s3OpenOk then
    (.error "open bucket error", [.awsNewSession, .s3OpenBucket bucketName])
  else
    (.ok { bucketOpen := true, bucketName := bucketName, enableAccelerate := enableAccelerate },
     [.awsNewSession, .s3OpenBucket bucketName])

/-- Translation of `newGCPTestCloudStorage` (gcp-test-cloud-storage.go,
lines 47-112): reads `STORAGE_EMULATOR_HOST` back from the environment
(failing when empty), creates the native client against the emulator
endpoint, parses the credentials, and opens the gocloud bucket. -/
def newGCPTestCloudStorage (w : SDKWorld) (env : Env) (gcpCredentialJSON bucketName : String) :
    Except String GCPTestCloudStorage × List ProviderCall :=
  let host := getenv env "STORAGE_EMULATOR_HOST"
  if host = "" then
    (.error "can't create GCP bucket for tests, required ENV variable STORAGE_EMULATOR_HOST", [])
  else if ¬ w.gcpClientOk then
    (.error "failed to create client", [.gcpNewClient])
  else if ¬ w.credsParseOk gcpCredentialJSON then
    (.error "unable to initialize GCP creds", [.gcpNewClient])
  else if ¬ w.gcpHTTPOk then
    (.error "unable to create GCP HTTP Client", [.gcpNewClient])
  else if ¬ w.gcsOpenOk then
    (.error "open bucket error", [.gcpNewClient, .gcsOpenBucket bucketName])
  else
    (.ok { clientOpen := true, bucketOpen := true, bucketName := bucketName, host := host },
     [.gcpNewClient, .gcsOpenBucket bucketName])

/-- Translation of `newExplicitGCPCloudStorage`
(gcp-cloud-storage-explicit.go, lines 51-105): parses the credential
JSON, unmarshals the signing fields, creates the client and opens the
gocloud bucket against `bucketName`. -/
def newExplicitGCPCloudStorage (w : SDKWorld) (gcpCredentialJSON bucketName : String) :
    Except String ExplicitGCPCloudStorage × List ProviderCall :=
  if ¬ w.credsParseOk gcpCredentialJSON then
    (.error "unable to initialize GCP creds from JSON", [])
  else
    match w.unmarshalSig gcpCredentialJSON with
    | none => (.error "unable to unmarshal credentials", [])
    | some sig =>
        if ¬ w.gcpClientOk then
          (.error "unable to create GCP client", [.gcpNewClient])
        else if ¬ w.gcpHTTPOk then
          (.error "unable to create GCP HTTP Client", [.gcpNewClient])
        else if ¬ w.gcsOpenOk then
          (.error "open bucket error", [.gcpNewClient, .gcsOpenBucket bucketName])
        else
          (.ok { clientOpen := true, bucketOpen := true, bucketName := bucketName,
                 privateKey := sig.PrivateKey, googleAccessID := sig.GoogleAccessID },
           [.gcpNewClient, .gcsOpenBucket bucketName])

/-- Translation of `newImplicitGCPCloudStorage`
(gcp-cloud-storage-implicit.go, lines 47-105): resolves ambient default
credentials, creates the IAM credentials client, resolves the
service-account email via the metadata service, creates the client and
opens the gocloud bucket. -/
def newImplicitGCPCloudStorage (w : SDKWorld) (bucketName : String) :
    Except String ImplicitGCPCloudStorage × List ProviderCall :=
  if ¬ w.defaultCredsOk then
    (.error "default credentials error", [.gcpDefaultCreds])
  else if ¬ w.iamClientOk then
    (.error "iam client error", [.gcpDefaultCreds, .iamNewClient])
  else
    match w.serviceAccountEmail with
    | none => (.error "error validating accountID", [.gcpDefaultCreds, .iamNewClient])
    | some email =>
        if ¬ w.gcpClientOk then
          (.error "unable to create GCP client", [.gcpDefaultCreds, .iamNewClient])
        else if ¬ w.gcpHTTPOk then
          (.error "unable to create GCP HTTP Client", [.gcpDefaultCreds, .iamNewClient])
        else if ¬ w.gcsOpenOk then
          (.error "open bucket error",
           [.gcpDefaultCreds, .iamNewClient, .gcsOpenBucket bucketName])
        else
          (.ok { clientOpen := true, bucketOpen := true, iamClientOpen := true,
                 bucketName := bucketName, serviceAccountEmail := email },
           [.gcpDefaultCreds, .iamNewClient, .gcsOpenBucket bucketName])

/-! ### The factory -/

/-- What one factory invocation produces: the result, the process
environment afterwards, and the provider handshakes performed. -/
structure FactoryOutcome where
  result : Except String Backend
  env : Env
  calls : List ProviderCall
  deriving Repr

/-- Translation of `NewCloudStorageWithOption` (cloud-storage.go, lines
56-110). The `case "", "aws"` branch propagates non-empty credentials
into the environment and then calls the AWS constructors with
`bucketProvider` as their bucket-name argument (the Go source passes
`bucketProvider`, not `bucketName`, on both calls). The `case "gcp"`
branch sets `STORAGE_EMULATOR_HOST` in test mode, and in production mode
probes `compMeta.OnGCE()` and dispatches on the credential JSON. -/
def NewCloudStorageWithOption (w : SDKWorld) (env : Env) (isTesting : Bool)
    (bucketProvider bucketName : String) (opts : List CloudStorageOption) : FactoryOutcome :=
  let cloudStorageOpts := mergeOpts opts
  if bucketProvider = "" ∨ bucketProvider = "aws" then
    let env := if cloudStorageOpts.AWSS3AccessKeyID ≠ "" then
      setenv env "AWS_ACCESS_KEY_ID" cloudStorageOpts.AWSS3AccessKeyID else env
    let env := if cloudStorageOpts.AWSS3SecretAccessKey ≠ "" then
      setenv env "AWS_SECRET_ACCESS_KEY" cloudStorageOpts.AWSS3SecretAccessKey else env
    if isTesting then
      let rc := newAWSTestCloudStorage w cloudStorageOpts.AWSS3Endpoint
        cloudStorageOpts.AWSS3Region bucketProvider
      { result := rc.fst.map Backend.awsTest, env := env, calls := rc.snd }
    else
      let rc := newAWSCloudStorage w cloudStorageOpts.AWSS3Endpoint
        cloudStorageOpts.AWSS3Region bucketProvider cloudStorageOpts.AWSEnableS3Accelerate
      { result := rc.fst.map Backend.awsProd, env := env, calls := rc.snd }
  else if bucketProvider = "gcp" then
    if isTesting then
      let env := setenv env "STORAGE_EMULATOR_HOST" cloudStorageOpts.GCPStorageEmulatorHost
      let rc := newGCPTestCloudStorage w env cloudStorageOpts.GCPCredentialsJSON bucketName
      { result := rc.fst.map Backend.gcpTest, env := env, calls := rc.snd }
    else
      let isOnGCP := w.onGCE
      if cloudStorageOpts.GCPCredentialsJSON ≠ "" then
        let rc := newExplicitGCPCloudStorage w cloudStorageOpts.GCPCredentialsJSON bucketName
        { result := rc.fst.map Backend.gcpExplicit, env := env, calls := .gceProbe :: rc.snd }
      else if isOnGCP ∧ cloudStorageOpts.GCPCredentialsJSON = "" then
        let rc := newImplicitGCPCloudStorage w bucketName
        { result := rc.fst.map Backend.gcpImplicit, env := env, calls := .gceProbe :: rc.snd }
      else
        { result := .error "unable to create implicit GCP client without credentials",
          env := env, calls := [.gceProbe] }
  else
    { result := .error ("unsupported Bucket Provider: " ++ bucketProvider),
      env := env, calls := [] }

/-- Translation of `NewCloudStorage` (cloud-storage.go, lines 30-53):
packs the flat arguments into one option bundle with the accelerate flag
false. -/
def NewCloudStorage (w : SDKWorld) (env : Env) (isTesting : Bool)
    (bucketProvider bucketName : String)
    (awsS3Endpoint awsS3Region awsS3AccessKeyID awsS3SecretAccessKey : String)
    (gcpCredentialsJSON gcpStorageEmulatorHost : String) : FactoryOutcome :=
  NewCloudStorageWithOption w env isTesting bucketProvider bucketName
    [{ AWSS3Endpoint := awsS3Endpoint,
       AWSS3Region := awsS3Region,
       AWSS3AccessKeyID := awsS3AccessKeyID,
       AWSS3SecretAccessKey := awsS3SecretAccessKey,
       AWSEnableS3Accelerate := false,
       GCPCredentialsJSON := gcpCredentialsJSON,
       GCPStorageEmulatorHost := gcpStorageEmulatorHost }]

/-- A fully healthy SDK world used to evaluate the model on concrete
inputs. -/
def worldAllOk : SDKWorld :=
  { onGCE := true,
    credsParseOk := fun _ => true,
    unmarshalSig := fun _ => some { PrivateKey := "pk", GoogleAccessID := "svc@proj.iam" } }

/-! ### Store lemmas -/

theorem bucketReadAll_write (st : BucketStore) (key : String) (b : StoredBlob) :
    bucketReadAll (bucketWriteAll st key b) key = .ok b.data := by
  simp [bucketReadAll, bucketWriteAll, List.find?_cons_of_pos]

theorem bucketSDKAttributes_write (st : BucketStore) (key : String) (b : StoredBlob) :
    bucketSDKAttributes (bucketWriteAll st key b) key
      = .ok { CacheControl := "", ContentDisposition := "", ContentEncoding := "",
              ContentLanguage := "", ContentType := b.contentType, Metadata := [],
              ModTime := 0, Size := (b.data.length : Int), MD5 := [] } := by
  simp [bucketSDKAttributes, bucketWriteAll, List.find?_cons_of_pos]

/-! ### Claim theorems -/

/-- C1 (code-bug evaluation): the factory's AWS branch passes the
provider tag, not the caller-supplied bucket name, as the constructors'
bucket-name argument: with tag "aws" and caller bucket name "my-bucket",
the constructed backend's opened bucket is named "aws" in test mode and
in production mode alike. -/
theorem factory_aws_opens_bucket_named_after_provider_tag :
    (NewCloudStorageWithOption worldAllOk [] true "aws" "my-bucket" []).result
      = .ok (.awsTest { clientOpen := true, bucketOpen := true, bucketName := "aws" })
    ∧ (NewCloudStorageWithOption worldAllOk [] true "aws" "my-bucket" []).calls
      = [.awsNewSession, .s3OpenBucket "aws"]
    ∧ (NewCloudStorageWithOption worldAllOk [] false "aws" "my-bucket" []).result
      = .ok (.awsProd { bucketOpen := true, bucketName := "aws", enableAccelerate := false })
    ∧ (NewCloudStorageWithOption worldAllOk [] true "" "my-bucket" []).result
      = .ok (.awsTest { clientOpen := true, bucketOpen := true, bucketName := "" })
    ∧ ("aws" : String) ≠ "my-bucket" := by
  refine ⟨rfl, rfl, rfl, rfl, by decide⟩

/-- C6 (code-bug evaluation): when the underlying cursor yields an error
other than `iterator.Done`, the iterator produced by `ListWithOptions`
dereferences the nil attributes pointer (a crash) instead of returning
the error, while the iterator produced by `List` returns the error. -/
theorem listWithOptions_nonDone_error_nilPanic :
    ((GCPTestCloudStorage.ListWithOptions { cancelled := false }
        [CursorStep.err (.other "transport error")]).Next { cancelled := false }).fst
      = NextOutcome.nilPanic
    ∧ ((GCPTestCloudStorage.List { cancelled := false }
        [CursorStep.err (.other "transport error")]).Next { cancelled := false }).fst
      = NextOutcome.fail (.other "transport error")
    ∧ NextOutcome.nilPanic ≠ NextOutcome.fail (.other "transport error") := by
  refine ⟨rfl, rfl, by decide⟩

/-- C7 (counterexample): the GCP sandbox `CreateBucket` installs a
lifecycle rule carrying no prefix condition: the rule it attaches for
prefix "userdata/" also governs an object outside that prefix, so it is
not a rule that expires (only) objects under the prefix. -/
theorem gcpTest_createBucket_rule_not_scoped_to_pfx :
    GCPTestCloudStorage.CreateBucket { bucketExists := false, rules := [] } "userdata/" 7
      = ({ bucketExists := true, rules := [{ pfxFilter := none, expirationDays := 7 }] }, none)
    ∧ LifecycleRule.appliesTo { pfxFilter := none, expirationDays := 7 } "other/file.txt" = true
    ∧ strIsPfxOf "userdata/" "other/file.txt" = false := by
  refine ⟨rfl, rfl, by decide⟩

/-- C7 (amended): `CreateBucket` on every production-tagged backend
returns nil and leaves the bucket state unchanged; on a fresh bucket the
AWS test backend creates it and attaches a lifecycle rule expiring
objects under the trimmed prefix after `expirationDays` days, while the
GCP test backend creates it with a rule expiring all objects after
`expirationDays` days, ignoring the prefix argument; when the bucket
already exists the AWS test backend returns nil without touching the
rules and the GCP test backend returns the wrapped creation error. -/
theorem createBucket_policy (infra : BucketInfra) (pfx : String) (days : Int) :
    AWSCloudStorage.CreateBucket infra pfx days = (infra, none)
    ∧ ExplicitGCPCloudStorage.CreateBucket infra pfx days = (infra, none)
    ∧ ImplicitGCPCloudStorage.CreateBucket infra pfx days = (infra, none)
    ∧ (infra.bucketExists = false →
        AWSTestCloudStorage.CreateBucket infra pfx days
          = ({ bucketExists := true,
               rules := [{ pfxFilter := some (trimSuffix pfx "/"),
                           expirationDays := days }] }, none)
        ∧ GCPTestCloudStorage.CreateBucket infra pfx days
          = ({ bucketExists := true,
               rules := [{ pfxFilter := none, expirationDays := days }] }, none))
    ∧ (infra.bucketExists = true →
        AWSTestCloudStorage.CreateBucket infra pfx days = (infra, none)
        ∧ GCPTestCloudStorage.CreateBucket infra pfx days
          = (infra, some (.other "failed to create bucket: bucket exists"))) := by
  refine ⟨rfl, rfl, rfl, ?_, ?_⟩
  · intro h
    constructor <;> simp [AWSTestCloudStorage.CreateBucket, GCPTestCloudStorage.CreateBucket, h]
  · intro h
    constructor <;> simp [AWSTestCloudStorage.CreateBucket, GCPTestCloudStorage.CreateBucket, h]

theorem createBucket_policy_witness :
    AWSTestCloudStorage.CreateBucket { bucketExists := false, rules := [] } "p/" 3
      = ({ bucketExists := true,
           rules := [{ pfxFilter := some "p", expirationDays := 3 }] }, none)
    ∧ GCPTestCloudStorage.CreateBucket
        { bucketExists := true, rules := [{ pfxFilter := none, expirationDays := 1 }] } "p/" 3
      = ({ bucketExists := true, rules := [{ pfxFilter := none, expirationDays := 1 }] },
         some (.other "failed to create bucket: bucket exists")) := by
  constructor
  · have h := (createBucket_policy { bucketExists := false, rules := [] } "p/" 3).2.2.2.1 rfl
    have hp : trimSuffix "p/" "/" = "p" := by decide
    rw [hp] at h
    exact h.1
  · exact ((createBucket_policy
      { bucketExists := true, rules := [{ pfxFilter := none, expirationDays := 1 }] }
      "p/" 3).2.2.2.2 rfl).2

/-- C8 (counterexample): the AWS sandbox backend's `GetSignedURL`
delegates to the SDK's cryptographic presigning rather than returning a
deterministic unsigned emulator URL, so not every sandbox backend
produces an unsigned URL. -/
theorem awsTest_getSignedURL_sdk_signed :
    AWSTestCloudStorage.GetSignedURL
        { clientOpen := true, bucketOpen := true, bucketName := "test-bucket" } "k.json" 3600
      = (.sdkPresigned "k.json" 3600, none)
    ∧ SignedURLOutcome.isUnsigned (.sdkPresigned "k.json" 3600) = false := by
  exact ⟨rfl, rfl⟩

/-- C8 (amended): the GCP sandbox backend's `GetSignedURL` returns,
without error and without signing, exactly the deterministic URL
`http://<host>/<bucketName>/<key>`; the AWS sandbox backend instead
delegates to the SDK's signed-URL construction with the given expiry. -/
theorem sandbox_getSignedURL_policy (ts : GCPTestCloudStorage) (key : String)
    (opts : SignedURLOption) (tsa : AWSTestCloudStorage) (k : String) (expiry : Int) :
    ts.GetSignedURL key opts
      = (.unsigned ("http://" ++ ts.host ++ "/" ++ ts.bucketName ++ "/" ++ key), none)
    ∧ (ts.GetSignedURL key opts).fst.isUnsigned = true
    ∧ tsa.GetSignedURL k expiry = (.sdkPresigned k expiry, none) := by
  exact ⟨rfl, rfl, rfl⟩

/-- C9 (counterexample): on an explicit-GCP backend owning both a client
handle and a bucket handle, `Close()` releases the bucket handle but
leaves the client handle open — the two are not released together. -/
theorem close_leaves_client_handle_open :
    (ExplicitGCPCloudStorage.Close
        { clientOpen := true, bucketOpen := true, bucketName := "b",
          privateKey := "pk", googleAccessID := "id" }).bucketOpen = false
    ∧ (ExplicitGCPCloudStorage.Close
        { clientOpen := true, bucketOpen := true, bucketName := "b",
          privateKey := "pk", googleAccessID := "id" }).clientOpen = true := by
  exact ⟨rfl, rfl⟩

/-- C9 (amended): on every backend owning both a provider SDK client
handle and a bucket handle, `Close()` releases only the bucket handle;
the client handle (and the IAM client handle, where present) is left in
its previous state. -/
theorem close_releases_bucket_handle_only
    (e : ExplicitGCPCloudStorage) (i : ImplicitGCPCloudStorage)
    (g : GCPTestCloudStorage) (a : AWSTestCloudStorage) :
    e.Close.bucketOpen = false ∧ e.Close.clientOpen = e.clientOpen
    ∧ i.Close.bucketOpen = false ∧ i.Close.clientOpen = i.clientOpen
    ∧ i.Close.iamClientOpen = i.iamClientOpen
    ∧ g.Close.bucketOpen = false ∧ g.Close.clientOpen = g.clientOpen
    ∧ a.Close.bucketOpen = false ∧ a.Close.clientOpen = a.clientOpen := by
  exact ⟨rfl, rfl, rfl, rfl, rfl, rfl, rfl, rfl, rfl⟩

/-- C4: on every provider backend variant, `Write(k, body, ct)` succeeds,
a subsequent `Get(k)` returns exactly `body`, and a subsequent
`Attributes(k)` reports `Size = len(body)`. -/
theorem write_get_attributes_roundtrip (v : BackendVariant) (st : BucketStore)
    (key : String) (body : Body) (ct : Option String) :
    (variantWrite v st key body ct).snd = none
    ∧ variantGet v (variantWrite v st key body ct).fst key = .ok body
    ∧ (variantAttributes v (variantWrite v st key body ct).fst key).map (fun a => a.Size)
      = .ok (body.length : Int) := by
  cases v <;>
    simp [variantWrite, variantGet, variantAttributes,
      AWSCloudStorage.Write, AWSCloudStorage.Get, AWSCloudStorage.Attributes,
      AWSTestCloudStorage.Write, AWSTestCloudStorage.Get, AWSTestCloudStorage.Attributes,
      GCPTestCloudStorage.Write, GCPTestCloudStorage.Get, GCPTestCloudStorage.Attributes,
      ImplicitGCPCloudStorage.Write, ImplicitGCPCloudStorage.Get,
      ImplicitGCPCloudStorage.Attributes,
      ExplicitGCPCloudStorage.Write, ExplicitGCPCloudStorage.Get,
      ExplicitGCPCloudStorage.Attributes,
      bucketReadAll_write, bucketSDKAttributes_write, Except.map]

/-- C10: `ListIterator.Next` ignores its context argument — any two
contexts produce the same invocation of the captured closure and the same
result — and cancellation affects the underlying fetch only through the
context captured when `List` was called. -/
theorem listIterator_next_ignores_context (c1 c2 listCtx : Context)
    (i : ListIterator) (cur : Cursor) :
    i.Next c1 = i.Next c2
    ∧ (ExplicitGCPCloudStorage.List listCtx cur).Next c1
      = (ExplicitGCPCloudStorage.List listCtx cur).Next { cancelled := true }
    ∧ (listCtx.cancelled = true →
        ((ExplicitGCPCloudStorage.List listCtx cur).Next c1).fst
          = .fail (.other "context canceled")) := by
  refine ⟨rfl, rfl, ?_⟩
  intro hc
  simp [ExplicitGCPCloudStorage.List, ListIterator.Next, newListIterator,
    ExplicitGCPCloudStorage.listClosure, gocloudIterNext, hc]

theorem listIterator_next_ignores_context_witness :
    ((ExplicitGCPCloudStorage.List { cancelled := true } []).Next { cancelled := false }).fst
      = NextOutcome.fail (.other "context canceled") :=
  (listIterator_next_ignores_context { cancelled := false } { cancelled := false }
    { cancelled := true }
    (ExplicitGCPCloudStorage.List { cancelled := true } []) []).2.2 rfl

/-- Success-conditions on the collaborators for the explicit-credential
path: the credential JSON parses and unmarshals. -/
def SDKWorld.credsOk (w : SDKWorld) (creds : String) : Prop :=
  w.credsParseOk creds = true ∧ (w.unmarshalSig creds).isSome = true

/-- Success-conditions on the shared GCP collaborators: client, HTTP
client, bucket open. -/
def SDKWorld.gcpSDKOk (w : SDKWorld) : Prop :=
  w.gcpClientOk = true ∧ w.gcpHTTPOk = true ∧ w.gcsOpenOk = true

/-- Success-conditions on the ambient-credential collaborators: default
credentials, IAM client, email resolution. -/
def SDKWorld.ambientOk (w : SDKWorld) : Prop :=
  w.defaultCredsOk = true ∧ w.iamClientOk = true ∧ w.serviceAccountEmail.isSome = true

theorem isPred_of_map_ok {α : Type} (p : Backend → Bool) (f : α → Backend)
    {r : Except String α} {b : Backend}
    (hf : ∀ v, p (f v) = true) (h : Except.map f r = .ok b) : p b = true := by
  cases r with
  | error e => simp [Except.map] at h
  | ok v =>
      simp only [Except.map] at h
      cases h
      exact hf v

/-- C2: the factory dispatches on the provider tag: the empty string and
"aws" can only yield AWS backends, "gcp" can only yield GCP backends, and
every other tag returns the unsupported-provider error with the
environment unchanged and no provider handshake performed. -/
theorem factory_dispatch_on_provider_tag (w : SDKWorld) (env : Env) (isTesting : Bool)
    (tag bucketName : String) (opts : List CloudStorageOption) :
    ((tag = "" ∨ tag = "aws") → ∀ b,
        (NewCloudStorageWithOption w env isTesting tag bucketName opts).result = .ok b →
        b.isAWS = true)
    ∧ (tag = "gcp" → ∀ b,
        (NewCloudStorageWithOption w env isTesting tag bucketName opts).result = .ok b →
        b.isGCP = true)
    ∧ (tag ≠ "" → tag ≠ "aws" → tag ≠ "gcp" →
        NewCloudStorageWithOption w env isTesting tag bucketName opts
          = { result := .error ("unsupported Bucket Provider: " ++ tag),
              env := env, calls := [] }) := by
  refine ⟨?_, ?_, ?_⟩
  · intro htag b hb
    simp only [NewCloudStorageWithOption, if_pos htag] at hb
    split at hb
    · exact isPred_of_map_ok Backend.isAWS Backend.awsTest (fun v => rfl) (by simpa using hb)
    · exact isPred_of_map_ok Backend.isAWS Backend.awsProd (fun v => rfl) (by simpa using hb)
  · rintro rfl b hb
    by_cases hc : (mergeOpts opts).GCPCredentialsJSON = ""
    · cases isTesting with
      | true =>
          simp [NewCloudStorageWithOption, hc] at hb
          exact isPred_of_map_ok Backend.isGCP Backend.gcpTest (fun v => rfl) hb
      | false =>
          by_cases hg : w.onGCE = true
          · simp [NewCloudStorageWithOption, hc, hg] at hb
            exact isPred_of_map_ok Backend.isGCP Backend.gcpImplicit (fun v => rfl) hb
          · simp [NewCloudStorageWithOption, hc, hg] at hb
    · cases isTesting with
      | true =>
          simp [NewCloudStorageWithOption, hc] at hb
          exact isPred_of_map_ok Backend.isGCP Backend.gcpTest (fun v => rfl) hb
      | false =>
          simp [NewCloudStorageWithOption, hc] at hb
          exact isPred_of_map_ok Backend.isGCP Backend.gcpExplicit (fun v => rfl) hb
  · intro h1 h2 h3
    have hno : ¬(tag = "" ∨ tag = "aws") := fun hc => hc.elim h1 h2
    simp only [NewCloudStorageWithOption, if_neg hno, if_neg h3]

theorem factory_dispatch_on_provider_tag_witness :
    Backend.isAWS
      (Backend.awsTest { clientOpen := true, bucketOpen := true, bucketName := "aws" }) = true
    ∧ Backend.isGCP
      (Backend.gcpTest { clientOpen := true, bucketOpen := true, bucketName := "bkt",
                         host := "localhost:9023" }) = true
    ∧ NewCloudStorageWithOption worldAllOk [] false "unknown" "bkt" []
      = { result := .error "unsupported Bucket Provider: unknown", env := [], calls := [] } := by
  refine ⟨?_, ?_, ?_⟩
  · exact (factory_dispatch_on_provider_tag worldAllOk [] true "aws" "bkt" []).1
      (Or.inr rfl) _ rfl
  · exact (factory_dispatch_on_provider_tag worldAllOk []
      true "gcp" "bkt" [{ GCPStorageEmulatorHost := "localhost:9023" }]).2.1 rfl _ rfl
  · exact (factory_dispatch_on_provider_tag worldAllOk [] false "unknown" "bkt" []).2.2
      (by decide) (by decide) (by decide)

/-- C3: in production mode with provider tag "gcp": a non-empty
credential JSON constructs the explicit-credential backend against the
caller's bucket; an empty credential JSON inside the provider's compute
environment constructs the implicit/ambient backend; an empty credential
JSON outside it fails with the implicit-client error, performing only the
GCE probe and constructing no backend. -/
theorem factory_gcp_production_credential_paths (w : SDKWorld) (env : Env)
    (bucketName : String) (opts : List CloudStorageOption) :
    ((mergeOpts opts).GCPCredentialsJSON ≠ "" →
        SDKWorld.credsOk w (mergeOpts opts).GCPCredentialsJSON → SDKWorld.gcpSDKOk w →
        ∃ e : ExplicitGCPCloudStorage,
          (NewCloudStorageWithOption w env false "gcp" bucketName opts).result
            = .ok (.gcpExplicit e) ∧ e.bucketName = bucketName)
    ∧ ((mergeOpts opts).GCPCredentialsJSON = "" → w.onGCE = true →
        SDKWorld.ambientOk w → SDKWorld.gcpSDKOk w →
        ∃ i : ImplicitGCPCloudStorage,
          (NewCloudStorageWithOption w env false "gcp" bucketName opts).result
            = .ok (.gcpImplicit i) ∧ i.bucketName = bucketName)
    ∧ ((mergeOpts opts).GCPCredentialsJSON = "" → w.onGCE = false →
        NewCloudStorageWithOption w env false "gcp" bucketName opts
          = { result := .error "unable to create implicit GCP client without credentials",
              env := env, calls := [.gceProbe] }) := by
  have hno : ¬(("gcp" : String) = "" ∨ ("gcp" : String) = "aws") := by simp
  refine ⟨?_, ?_, ?_⟩
  · intro hcreds hcok hsdk
    obtain ⟨hparse, hsig⟩ := hcok
    obtain ⟨hcl, hhttp, hopen⟩ := hsdk
    obtain ⟨sig, hs⟩ := Option.isSome_iff_exists.mp hsig
    refine ⟨{ clientOpen := true, bucketOpen := true, bucketName := bucketName,
              privateKey := sig.PrivateKey, googleAccessID := sig.GoogleAccessID },
            ?_, rfl⟩
    simp [NewCloudStorageWithOption, if_neg hno, newExplicitGCPCloudStorage,
      hcreds, hparse, hs, hcl, hhttp, hopen, Except.map]
  · intro hcreds hgce hamb hsdk
    obtain ⟨hdef, hiam, hmail⟩ := hamb
    obtain ⟨hcl, hhttp, hopen⟩ := hsdk
    obtain ⟨email, hm⟩ := Option.isSome_iff_exists.mp hmail
    refine ⟨{ clientOpen := true, bucketOpen := true, iamClientOpen := true,
              bucketName := bucketName, serviceAccountEmail := email },
            ?_, rfl⟩
    simp [NewCloudStorageWithOption, if_neg hno, newImplicitGCPCloudStorage,
      hcreds, hgce, hdef, hiam, hm, hcl, hhttp, hopen, Except.map]
  · intro hcreds hgce
    simp [NewCloudStorageWithOption, if_neg hno, hcreds, hgce]

theorem factory_gcp_production_credential_paths_witness :
    (∃ e : ExplicitGCPCloudStorage,
        (NewCloudStorageWithOption worldAllOk [] false "gcp" "bkt"
            [{ GCPCredentialsJSON := "cred-json" }]).result
          = .ok (.gcpExplicit e) ∧ e.bucketName = "bkt")
    ∧ (∃ i : ImplicitGCPCloudStorage,
        (NewCloudStorageWithOption worldAllOk [] false "gcp" "bkt" []).result
          = .ok (.gcpImplicit i) ∧ i.bucketName = "bkt")
    ∧ NewCloudStorageWithOption { worldAllOk with onGCE := false } [] false "gcp" "bkt" []
      = { result := .error "unable to create implicit GCP client without credentials",
          env := [], calls := [.gceProbe] } := by
  refine ⟨?_, ?_, ?_⟩
  · exact (factory_gcp_production_credential_paths worldAllOk [] "bkt"
      [{ GCPCredentialsJSON := "cred-json" }]).1 (by decide) ⟨rfl, rfl⟩ ⟨rfl, rfl, rfl⟩
  · exact (factory_gcp_production_credential_paths worldAllOk [] "bkt" []).2.1
      rfl rfl ⟨rfl, rfl, rfl⟩ ⟨rfl, rfl, rfl⟩
  · exact (factory_gcp_production_credential_paths
      { worldAllOk with onGCE := false } [] "bkt" []).2.2 rfl rfl

end CommonBlobGo
